import Mathlib

/-!
Shallow embedding of the creditcardanalyzer pipeline: the transaction
categorizer and pivot builder of data_processor.py, and the bank statement
plugins and multi-file dispatcher of bank_parsers.py.  Pandas dataframes are
modelled as lists of rows, amounts as exact rationals, Python exceptions as
Except values.  The tiny regex subset actually used by the category patterns
(literals, escapes, the dot wildcard and the plus quantifier, all under
re.IGNORECASE) is implemented directly.
-/

namespace CCA

set_option maxRecDepth 16000

/-- ASCII lower-casing on a Unicode code point: models Python str.lower and
re.IGNORECASE for the ASCII range used by the patterns. -/
def lowerN (n : Nat) : Nat := if 65 ≤ n ∧ n ≤ 90 then n + 32 else n

/-- Code points of a string. -/
def codes (s : String) : List Nat := s.toList.map Char.toNat

/-- Lower-cased code points of a string. -/
def lowCodes (s : String) : List Nat := (codes s).map lowerN

/-- Token of the regex subset: a literal code point or the dot wildcard. -/
inductive RTok where
  | lit : Nat → RTok
  | dot : RTok
deriving DecidableEq

/-- A regex atom: a token, optionally under the plus quantifier. -/
structure RAtom where
  tok : RTok
  plus : Bool
deriving DecidableEq

/-- Parse a pattern (as code points) into atoms: backslash escapes the next
code point, 46 is the dot wildcard, 43 marks the previous atom as plus. -/
def parseTokens : List Nat → List RAtom → List RAtom
  | [], acc => acc.reverse
  | 92 :: c :: rest, acc => parseTokens rest (⟨RTok.lit c, false⟩ :: acc)
  | [92], acc => acc.reverse
  | 46 :: rest, acc => parseTokens rest (⟨RTok.dot, false⟩ :: acc)
  | 43 :: rest, a :: acc => parseTokens rest (⟨a.tok, true⟩ :: acc)
  | 43 :: rest, [] => parseTokens rest []
  | c :: rest, acc => parseTokens rest (⟨RTok.lit c, false⟩ :: acc)

/-- Does a token match a (lower-cased) subject code point? -/
def tokMatches : RTok → Nat → Bool
  | RTok.lit c, d => lowerN c == d
  | RTok.dot, _ => true

/-- Match an atom list against some prefix of the subject; the subject comes
first so that the recursion is structural in it. -/
def matchAtomsGo : List Nat → List RAtom → Bool
  | _, [] => true
  | [], _ :: _ => false
  | c :: cs, a :: as =>
    if tokMatches a.tok c then
      if a.plus then matchAtomsGo cs as || matchAtomsGo cs (a :: as)
      else matchAtomsGo cs as
    else false

/-- Match an atom list against some prefix of the subject. -/
def matchAtoms (ats : List RAtom) (s : List Nat) : Bool := matchAtomsGo s ats

/-- Try to match at every start position (semantics of re.search). -/
def searchCodes (ats : List RAtom) : List Nat → Bool
  | [] => matchAtoms ats []
  | c :: cs => matchAtoms ats (c :: cs) || searchCodes ats cs

/-- Model of re.search(pattern, description, re.IGNORECASE) as called by
categorize_transactions: both sides are lower-cased. -/
def reSearch (pat s : String) : Bool :=
  searchCodes (parseTokens (lowCodes pat) []) (lowCodes s)

/-- One matching test of a description against a pattern list, mirroring
any(re.search(pattern, description, re.IGNORECASE) for pattern in patterns). -/
def catMatches (desc : String) (pats : List String) : Bool :=
  pats.any (fun p => reSearch p desc)

/-- The category pattern table of categorize_transactions, in declaration
order (data_processor.py lines 23-81). -/
def categoryPatterns : List (String × List String) :=
  [ ("Dining",
      ["restaurant", "dining", "café", "cafe", "coffee", "bakery",
       "starbucks", "dunkin", "mcdonald", "burger", "pizza", "taco",
       "chipotle", "wendy", "subway", "grubhub", "doordash", "ubereats",
       "deli", "bar & grill", "bistro", "steakhouse", "sushi"]),
    ("Groceries",
      ["grocery", "market", "supermarket", "food market", "whole foods",
       "kroger", "safeway", "trader joe", "aldi", "walmart", "target",
       "costco", "sam\\\x27s club", "publix", "wegmans", "instacart"]),
    ("Gas & Automotive",
      ["gas", "fuel", "shell", "exxon", "mobil", "chevron", "bp",
       "auto parts", "autozone", "jiffy lube", "meineke", "valvoline",
       "car wash", "parking", "garage", "toll"]),
    ("Travel",
      ["airline", "flight", "delta", "united", "american air", "southwest",
       "jetblue", "airbnb", "hotel", "motel", "inn", "resort", "marriott",
       "hilton", "hyatt", "expedia", "travelocity", "booking.com", "uber",
       "lyft", "taxi", "car rental", "hertz", "avis", "enterprise"]),
    ("Entertainment",
      ["movie", "cinema", "theater", "theatre", "netflix", "hulu",
       "disney+", "spotify", "apple music", "concert", "ticketmaster",
       "amazon prime", "hbo", "youtube", "game", "playstation", "xbox",
       "theme park", "museum", "zoo", "aquarium"]),
    ("Shopping",
      ["amazon", "walmart", "target", "best buy", "macy", "nordstrom",
       "clothing", "apparel", "shoe", "jewelry", "accessory", "cosmetic",
       "sephora", "ulta", "mall", "department store", "nike", "adidas",
       "apple store", "microsoft", "home depot", "lowe", "ikea", "furniture"]),
    ("Health & Medical",
      ["pharmacy", "drug store", "cvs", "walgreens", "rite aid", "doctor",
       "hospital", "clinic", "medical", "dental", "healthcare", "insurance",
       "vision", "optometrist", "chiropractor", "therapy"]),
    ("Utilities & Bills",
      ["electric", "water", "gas bill", "utility", "phone", "mobile",
       "internet", "cable", "tv", "telecom", "at&t", "verizon", "comcast",
       "xfinity", "spectrum", "bill pay", "utilities"]),
    ("Subscriptions & Memberships",
      ["subscription", "membership", "monthly", "annual fee", "gym",
       "fitness", "magazine", "newspaper", "software", "service fee",
       "recurring", "monthly service"]),
    ("Education",
      ["tuition", "school", "university", "college", "campus", "education",
       "book store", "textbook", "course", "library", "student"]),
    ("Income & Transfers",
      ["deposit", "transfer", "payment", "payroll", "direct deposit",
       "venmo", "paypal", "zelle", "cash app", "refund", "reimbursement"]) ]

/-- A calendar date (pandas Timestamp / datetime.datetime in the source). -/
structure CalDate where
  year : Nat
  month : Nat
  day : Nat
deriving DecidableEq

/-- The canonical transaction row produced by the parsers and consumed by the
categorizer and the pivot builder. -/
structure Txn where
  date : CalDate
  description : String
  amount : ℚ
  source : String
  category : String
deriving DecidableEq

/-- Input dataframe of categorize_transactions: its rows plus whether the
Category column is already present (if absent the code initialises it to
"Uncategorized" first). -/
structure DFrame where
  rows : List Txn
  hasCategoryCol : Bool

/-- The Category-column initialisation of categorize_transactions
(data_processor.py lines 19-20). -/
def initCategory (df : DFrame) : List Txn :=
  if df.hasCategoryCol then df.rows
  else df.rows.map (fun r => { r with category := "Uncategorized" })

/-- First category (in declaration order) with any matching pattern. -/
def firstMatchCat (desc : String) : Option String :=
  (categoryPatterns.find? (fun p => catMatches desc p.2)).map Prod.fst

/-- Per-row body of the categorisation loop (data_processor.py lines 84-91):
assign the first matching category and break; otherwise leave the row. -/
def assignCategory (r : Txn) : Txn :=
  match firstMatchCat r.description with
  | some c => { r with category := c }
  | none => r

/-- Order-preserving deduplication with an accumulator of already-seen
elements; models pandas Series.unique (first occurrence wins). -/
def dedupSeen {α : Type _} [DecidableEq α] : List α → List α → List α
  | [], _ => []
  | x :: xs, seen => if x ∈ seen then dedupSeen xs seen else x :: dedupSeen xs (x :: seen)

/-- pandas unique: distinct values in first-occurrence order. -/
def uniqueList {α : Type _} [DecidableEq α] (l : List α) : List α := dedupSeen l []

/-- categorize_transactions (data_processor.py lines 5-96): copy the input,
initialise Category when absent, assign each row the first matching category,
and return the rows together with the distinct category list. -/
def categorize_transactions (df : DFrame) : List Txn × List String :=
  let rows := (initCategory df).map assignCategory
  (rows, uniqueList (rows.map Txn.category))

/-- Month key of a row (strftime of the Date column, data_processor.py
line 113). -/
def monthOf (r : Txn) : Nat × Nat := (r.date.year, r.date.month)

/-- One cell of the category pivot: sum of amounts of the rows with the given
category and month (pd.pivot_table with aggfunc=sum, fill_value=0). -/
def pivotCell (rows : List Txn) (c : String) (m : Nat × Nat) : ℚ :=
  ((rows.filter (fun r => decide (r.category = c ∧ monthOf r = m))).map Txn.amount).sum

/-- The appended Total column (data_processor.py line 126): per category, the
sum of its cells over every month column of the pivot. -/
def pivotRowTotal (rows : List Txn) (c : String) : ℚ :=
  ((uniqueList (rows.map monthOf)).map (fun m => pivotCell rows c m)).sum

/-- The Total cell of the appended Total row (data_processor.py line 129):
the column sum of the Total column over every category row of the pivot. -/
def pivotGrandTotal (rows : List Txn) : ℚ :=
  ((uniqueList (rows.map Txn.category)).map (fun c => pivotRowTotal rows c)).sum

/-- A dataframe together with its column list, used to track the in-place
column additions that create_pivot_table performs on its argument. -/
structure PTable where
  rows : List Txn
  columns : List String

/-- Column assignment on a dataframe: overwrites in place if present,
appends otherwise. -/
def addColumn (cols : List String) (c : String) : List String :=
  if c ∈ cols then cols else cols ++ [c]

/-- State of the input dataframe after create_pivot_table returns
(data_processor.py lines 110-136): the Date column was coerced in place and
the Month and Merchant columns were assigned on the input object itself. -/
def create_pivot_table_post (t : PTable) : PTable :=
  { t with columns := addColumn (addColumn t.columns "Month") "Merchant" }

/-! ### CSV parsing (bank_parsers.py) -/

/-- A CSV file as read by pd.read_csv: a header row and string cells. -/
structure CsvTable where
  header : List String
  rows : List (List String)

/-- Is a code point an ASCII digit? -/
def isDigitN (n : Nat) : Bool := decide (48 ≤ n ∧ n ≤ 57)

/-- Value of a non-empty all-digit code point list, none otherwise. -/
def digitsVal (cs : List Nat) : Option Nat :=
  if cs.all (fun c => isDigitN c) then some (cs.foldl (fun a c => a * 10 + (c - 48)) 0)
  else none

/-- Python int() on a slice of a string: fails unless the slice is all
digits (a non-digit raises ValueError in the source). -/
def parseIntSub (s : String) (a b : Nat) : Option Nat :=
  let cs := ((codes s).drop a).take (b - a)
  if cs.isEmpty then none else digitsVal cs

/-- Unsigned decimal literal as a rational. -/
def parseFloatCore (cs : List Nat) : Option ℚ :=
  if cs.contains 46 then
    let ip := cs.takeWhile (fun c => c != 46)
    let fp := (cs.dropWhile (fun c => c != 46)).drop 1
    if fp.contains 46 then none
    else if ip.isEmpty && fp.isEmpty then none
    else
      match digitsVal ip, digitsVal fp with
      | some a, some b => some ((a : ℚ) + (b : ℚ) / ((10 : ℚ) ^ fp.length))
      | _, _ => none
  else
    match cs with
    | [] => none
    | _ => (digitsVal cs).map (fun n => (n : ℚ))

/-- Model of Python float() / pd.to_numeric on one cell: an optional minus
sign followed by a decimal literal. -/
def parseFloat (s : String) : Option ℚ :=
  match codes s with
  | 45 :: rest => (parseFloatCore rest).map (fun q => -q)
  | cs => parseFloatCore cs

/-- Leap year test of the proleptic Gregorian calendar. -/
def isLeap (y : Nat) : Bool := (y % 4 == 0 && y % 100 != 0) || y % 400 == 0

/-- Days in a month. -/
def daysInMonth (y m : Nat) : Nat :=
  if m = 2 then (if isLeap y then 29 else 28)
  else if m = 4 ∨ m = 6 ∨ m = 9 ∨ m = 11 then 30
  else 31

/-- datetime.datetime(year, month, day): validates the ranges and raises on
an invalid date (modelled as none). -/
def mkDate (y m d : Nat) : Option CalDate :=
  if 1 ≤ y ∧ y ≤ 9999 ∧ 1 ≤ m ∧ m ≤ 12 ∧ 1 ≤ d ∧ d ≤ daysInMonth y m then
    some ⟨y, m, d⟩
  else none

/-- Model of pd.to_datetime on one cell: accepts YYYY-MM-DD and YYYYMMDD
forms, none (NaT) otherwise. -/
def parseDateCell (s : String) : Option CalDate :=
  let cs := codes s
  if cs.length = 10 ∧ cs.getD 4 0 = 45 ∧ cs.getD 7 0 = 45 then
    match digitsVal (cs.take 4), digitsVal ((cs.drop 5).take 2),
          digitsVal ((cs.drop 8).take 2) with
    | some y, some m, some d => mkDate y m d
    | _, _, _ => none
  else if cs.length = 8 then
    match digitsVal (cs.take 4), digitsVal ((cs.drop 4).take 2),
          digitsVal ((cs.drop 6).take 2) with
    | some y, some m, some d => mkDate y m d
    | _, _, _ => none
  else none

/-- Index of a named column in the header (df[col] lookup). -/
def colIndex (header : List String) (c : String) : Nat :=
  List.findIdx (fun x => x == c) header

/-- Cell of a row at a column index. -/
def cellVal (row : List String) (i : Nat) : String := row.getD i ""

/-- standardize_dataframe (bank_parsers.py lines 86-124): coerce the date and
amount columns, copy the description, stamp source and Category, and drop the
rows whose date or amount failed to parse. -/
def standardize_dataframe (t : CsvTable) (bank dateCol descCol amountCol : String) :
    List Txn :=
  let di := colIndex t.header dateCol
  let si := colIndex t.header descCol
  let ai := colIndex t.header amountCol
  t.rows.filterMap (fun row =>
    match parseDateCell (cellVal row di), parseFloat (cellVal row ai) with
    | some d, some a => some ⟨d, cellVal row si, a, bank, "Uncategorized"⟩
    | _, _ => none)

/-- Case-insensitive substring test (the Python expression
pattern in col.lower()). -/
def hasPrefixN : List Nat → List Nat → Bool
  | [], _ => true
  | _ :: _, [] => false
  | a :: as, b :: bs => a == b && hasPrefixN as bs

/-- Substring occurrence anywhere in the subject. -/
def containsN (p : List Nat) : List Nat → Bool
  | [] => hasPrefixN p []
  | c :: cs => hasPrefixN p (c :: cs) || containsN p cs

/-- pattern in col_lower, with col lower-cased as in the source. -/
def containsTok (pat col : String) : Bool := containsN (lowCodes pat) (lowCodes col)

/-- The column-identification loop shared by the Amex, Chase and Discover CSV
paths: an if/elif chain per column, a later matching column overwriting an
earlier one. -/
def findColsByName (datePats descPats amountPats : List String)
    (header : List String) : Option String × Option String × Option String :=
  header.foldl (fun acc col =>
    if datePats.any (fun p => containsTok p col) then (some col, acc.2.1, acc.2.2)
    else if descPats.any (fun p => containsTok p col) then (acc.1, some col, acc.2.2)
    else if amountPats.any (fun p => containsTok p col) then (acc.1, acc.2.1, some col)
    else acc) (none, none, none)

/-- Amex column aliases (bank_parsers.py lines 190-193). -/
def amexFindCols (header : List String) : Option String × Option String × Option String :=
  findColsByName ["date", "transaction date", "trans date"]
    ["description", "merchant", "vendor"]
    ["amount", "debit", "credit"] header

/-- Chase column aliases (bank_parsers.py lines 336-339). -/
def chaseFindCols (header : List String) : Option String × Option String × Option String :=
  findColsByName ["transaction date", "posting date", "date"]
    ["description", "details"]
    ["amount"] header

/-- Discover column aliases (bank_parsers.py lines 479-482). -/
def discoverFindCols (header : List String) : Option String × Option String × Option String :=
  findColsByName ["trans. date", "transaction date", "date"]
    ["description"]
    ["amount"] header

/-- AmexStatementParser._parse_csv: name-based column identification only;
raises when any of the three required columns is missing. -/
def amexParseCsv (t : CsvTable) : Except String (List Txn) :=
  match amexFindCols t.header with
  | (some dc, some sc, some ac) => Except.ok (standardize_dataframe t "Amex" dc sc ac)
  | _ => Except.error
      "Error parsing Amex CSV file: Could not identify required columns in the CSV file"

/-- ChaseStatementParser._parse_csv: same structure as the Amex CSV path. -/
def chaseParseCsv (t : CsvTable) : Except String (List Txn) :=
  match chaseFindCols t.header with
  | (some dc, some sc, some ac) => Except.ok (standardize_dataframe t "Chase" dc sc ac)
  | _ => Except.error
      "Error parsing Chase CSV file: Could not identify required columns in the CSV file"

/-- DiscoverStatementParser._parse_csv: same structure as the Amex CSV path. -/
def discoverParseCsv (t : CsvTable) : Except String (List Txn) :=
  match discoverFindCols t.header with
  | (some dc, some sc, some ac) => Except.ok (standardize_dataframe t "Discover" dc sc ac)
  | _ => Except.error
      "Error parsing Discover CSV file: Could not identify required columns in the CSV file"

/-- Values of a named column. -/
def colValues (t : CsvTable) (col : String) : List String :=
  t.rows.map (fun row => cellVal row (colIndex t.header col))

/-- pd.to_datetime(df[col], errors=raise) succeeds iff every value parses. -/
def colAllDates (t : CsvTable) (col : String) : Bool :=
  (colValues t col).all (fun v => (parseDateCell v).isSome)

/-- pd.to_numeric(df[col], errors=raise) succeeds iff every value parses. -/
def colAllNums (t : CsvTable) (col : String) : Bool :=
  (colValues t col).all (fun v => (parseFloat v).isSome)

/-- dtype == object: read_csv leaves a column as strings iff it is not
entirely numeric. -/
def colIsText (t : CsvTable) (col : String) : Bool := !(colAllNums t col)

/-- Generic parser name patterns (bank_parsers.py lines 586-588). -/
def genDatePats : List String := ["date", "time", "when", "day"]

def genDescPats : List String :=
  ["description", "desc", "narrative", "details", "merchant", "vendor", "payee", "memo"]

def genAmountPats : List String :=
  ["amount", "sum", "value", "price", "cost", "debit", "credit", "payment"]

/-- First pass of GenericStatementParser.parse (lines 591-614): name match
guarded by a content check for date and amount, first match kept. -/
def genericNameCols (t : CsvTable) : Option String × Option String × Option String :=
  t.header.foldl (fun acc col =>
    let d := if acc.1.isNone && genDatePats.any (fun p => containsTok p col)
                && colAllDates t col then some col else acc.1
    let s := if acc.2.1.isNone && genDescPats.any (fun p => containsTok p col)
                then some col else acc.2.1
    let a := if acc.2.2.isNone && genAmountPats.any (fun p => containsTok p col)
                && colAllNums t col then some col else acc.2.2
    (d, s, a)) (none, none, none)

/-- Full column resolution of GenericStatementParser.parse (lines 591-641):
name pass, then content fallback for date and amount, then the first
remaining text column as description. -/
def genericResolve (t : CsvTable) : Option String × Option String × Option String :=
  let n := genericNameCols t
  let dcol := match n.1 with
    | some c => some c
    | none => t.header.find? (fun c => colAllDates t c)
  let acol := match n.2.2 with
    | some c => some c
    | none => t.header.find? (fun c => colAllNums t c)
  let scol := match n.2.1 with
    | some c => some c
    | none => t.header.find? (fun c => !(dcol == some c) && !(acol == some c) && colIsText t c)
  (dcol, scol, acol)

/-- GenericStatementParser.parse: raises iff one of the three roles is still
unresolved after the content fallback. -/
def genericParseCsv (t : CsvTable) : Except String (List Txn) :=
  match genericResolve t with
  | (some dc, some sc, some ac) => Except.ok (standardize_dataframe t "Generic" dc sc ac)
  | _ => Except.error
      "Error parsing generic CSV file: Could not identify required columns in the CSV file"

/-! ### OFX/QFX parsing (bank_parsers.py lines 215-270) -/

/-- One STMTTRN block, with the optional fields the parser extracts. -/
structure Block where
  dtposted : Option String
  name : Option String
  memo : Option String
  trnamt : Option String
deriving DecidableEq

/-- The date a well-formed DTPOSTED string denotes: requires at least eight
characters whose first three slices are numeric and form a valid date. -/
def ofxDateVal (s : String) : Option CalDate :=
  if s.length ≥ 8 then
    match parseIntSub s 0 4, parseIntSub s 4 6, parseIntSub s 6 8 with
    | some y, some m, some d => mkDate y m d
    | _, _, _ => none
  else none

/-- Body of the per-block loop of _parse_ofx: ok none means the block is
skipped (continue), error models an uncaught exception inside the loop
(int(), datetime() or float() raising), ok some is an appended row. -/
def processBlock (b : Block) : Except String (Option Txn) :=
  match b.dtposted with
  | none => Except.ok none
  | some ds =>
    if ds.length ≥ 8 then
      match parseIntSub ds 0 4, parseIntSub ds 4 6, parseIntSub ds 6 8 with
      | some y, some mo, some dy =>
        match mkDate y mo dy with
        | some date =>
          let description := (b.name.orElse (fun _ => b.memo)).getD "Unknown"
          match b.trnamt with
          | none => Except.ok none
          | some astr =>
            match parseFloat astr with
            | some amt =>
                Except.ok (some ⟨date, description, amt, "Amex", "Uncategorized"⟩)
            | none => Except.error "could not convert string to float"
        | none => Except.error "day is out of range for month"
      | _, _, _ => Except.error "invalid literal for int with base 10"
    else Except.ok none

/-- The transaction-collecting loop over all blocks: the first exception
aborts, skipped blocks contribute nothing. -/
def collectRows : List Block → Except String (List Txn)
  | [] => Except.ok []
  | b :: bs =>
    match processBlock b with
    | Except.error e => Except.error e
    | Except.ok none => collectRows bs
    | Except.ok (some r) => (collectRows bs).map (fun rs => r :: rs)

/-- AmexStatementParser._parse_ofx: collect the blocks, wrap any exception in
the outer handler, and raise when no transaction was produced. -/
def parse_ofx (blocks : List Block) : Except String (List Txn) :=
  match collectRows blocks with
  | Except.error e => Except.error ("Error parsing Amex OFX file: " ++ e)
  | Except.ok [] =>
      Except.error "Error parsing Amex OFX file: No transactions found in the OFX file"
  | Except.ok (r :: rs) => Except.ok (r :: rs)

/-! ### Multi-file dispatch (bank_parsers.py lines 695-731) -/

/-- os.path.basename. -/
def basename (p : String) : String := ((p.splitOn "/").getLast?).getD p

instance {e a : Type _} [DecidableEq e] [DecidableEq a] : DecidableEq (Except e a)
  | Except.error x, Except.error y =>
    if h : x = y then Decidable.isTrue (by rw [h])
    else Decidable.isFalse (fun hc => h (Except.error.inj hc))
  | Except.error _, Except.ok _ => Decidable.isFalse (fun hc => Except.noConfusion hc)
  | Except.ok _, Except.error _ => Decidable.isFalse (fun hc => Except.noConfusion hc)
  | Except.ok x, Except.ok y =>
    if h : x = y then Decidable.isTrue (by rw [h])
    else Decidable.isFalse (fun hc => h (Except.ok.inj hc))

/-- Successful payload of a parse outcome. -/
def okRows : Except String (List Txn) → Option (List Txn)
  | Except.ok r => some r
  | Except.error _ => none

/-- Success flag of an Except value. -/
def isOkE {α : Type _} : Except String α → Bool
  | Except.ok _ => true
  | Except.error _ => false

/-- Error message of an Except value (empty on success). -/
def errMsgOf {α : Type _} : Except String α → String
  | Except.ok _ => ""
  | Except.error m => m

/-- Sort key of the Date column. -/
def dateKey (d : CalDate) : Nat := d.year * 10000 + d.month * 100 + d.day

/-- Ascending order on transactions by date, used by sort_values. -/
def dateLe (a b : Txn) : Prop := dateKey a.date ≤ dateKey b.date

instance : DecidableRel dateLe := fun x y => Nat.decLe (dateKey x.date) (dateKey y.date)

instance : IsTotal Txn dateLe := ⟨fun x y => Nat.le_total (dateKey x.date) (dateKey y.date)⟩

instance : IsTrans Txn dateLe := ⟨fun _ _ _ h1 h2 => Nat.le_trans h1 h2⟩

/-- Result of parse_multiple_files: the returned (success, data-or-message)
pair plus the recorded per-file failure list that the method reports. -/
structure MultiRes where
  outcome : Except String (List Txn)
  failures : List (String × String)

/-- MultiStatementParser.parse_multiple_files: collect per-file outcomes,
fail only when no file succeeded, otherwise concatenate the successful
tables and sort by date; failed files are recorded with their basename. -/
def parse_multiple_files (pf : String → Except String (List Txn)) :
    List String → MultiRes
  | [] => ⟨Except.error "No files provided", []⟩
  | q :: qs =>
    let allData := (q :: qs).filterMap (fun p => okRows (pf p))
    let failedFiles := (q :: qs).filterMap (fun p =>
      match pf p with
      | Except.error m => some (basename p, m)
      | Except.ok _ => none)
    if allData.isEmpty then
      ⟨Except.error ("Failed to parse any files. Errors: "
          ++ String.intercalate "; " (failedFiles.map (fun f => f.1 ++ ": " ++ f.2))),
        failedFiles⟩
    else
      ⟨Except.ok (List.insertionSort dateLe allData.flatten), failedFiles⟩

/-- All three column roles resolved (the Python truthiness test
date_col and desc_col and amount_col). -/
def allSome3 (x : Option String × Option String × Option String) : Bool :=
  x.1.isSome && x.2.1.isSome && x.2.2.isSome

/-! ### Concrete inputs used by witnesses and counterexamples -/

/-- A one-row input table whose description matches both the Dining and the
Shopping pattern lists. -/
def dfEx : DFrame :=
  ⟨[⟨⟨2024, 1, 5⟩, "STARBUCKS AMAZON", (9 : ℚ) / 2, "Amex", "Uncategorized"⟩], false⟩

/-- A CSV whose column names match no alias list of any parser, but whose
contents resolve all three roles by inference. -/
def csvEx : CsvTable :=
  ⟨["happened", "particulars", "total"], [["2024-01-05", "STARBUCKS", "4.50"]]⟩

/-- A CSV with standard column names whose single row has an unparseable
date and amount. -/
def csvNamedEx : CsvTable :=
  ⟨["Date", "Description", "Amount"], [["garbage", "X", "nope"]]⟩

/-- A CSV with standard column names and one valid row with a negative
amount. -/
def csvGoodEx : CsvTable :=
  ⟨["Date", "Description", "Amount"], [["2024-01-05", "STARBUCKS", "-12.50"]]⟩

/-- A fully valid OFX transaction block. -/
def goodBlock : Block := ⟨some "20240105", some "STARBUCKS", none, some "-4.50"⟩

/-- A block lacking TRNAMT whose eight-character date string contains a
non-digit. -/
def badBlock : Block := ⟨some "2024010X", none, none, none⟩

/-- A block with a valid date and amount but neither NAME nor MEMO. -/
def unknownBlock : Block := ⟨some "20240105", none, none, some "25.00"⟩

/-- A block with no fields at all. -/
def emptyBlock : Block := ⟨none, none, none, none⟩

/-- A block with a valid date but no TRNAMT. -/
def skipNoAmtBlock : Block := ⟨some "20240105", none, none, none⟩

/-- A categorized input table for the pivot builder, with the canonical
column list. -/
def pivotInputEx : PTable := ⟨[], ["Date", "Description", "Amount", "Category"]⟩

/-- A sample transaction. -/
def txnEx : Txn := ⟨⟨2024, 1, 5⟩, "STARBUCKS", (9 : ℚ) / 2, "Amex", "Uncategorized"⟩

/-- A per-file parse outcome with one succeeding and one failing path. -/
def pfEx : String → Except String (List Txn) :=
  fun p => if p = "dir/good.csv" then Except.ok [txnEx] else Except.error "boom"

/-! ### Shared lemmas -/

theorem sum_map_addQ {κ : Type _} (f g : κ → ℚ) (ks : List κ) :
    (ks.map (fun k => f k + g k)).sum = (ks.map f).sum + (ks.map g).sum := by
  induction ks with
  | nil => simp
  | cons k ks ih => simp [ih]; ring

theorem sum_map_ite_singleQ {κ : Type _} [DecidableEq κ] (v : ℚ) :
    ∀ (ks : List κ), ks.Nodup → ∀ a : κ, a ∈ ks →
      (ks.map (fun k => if a = k then v else 0)).sum = v := by
  intro ks
  induction ks with
  | nil => intro _ a ha; exact absurd ha (List.not_mem_nil a)
  | cons k ks ih =>
    intro hnd a ha
    rcases List.nodup_cons.mp hnd with ⟨hk, hnd'⟩
    rcases List.mem_cons.mp ha with h | h
    · subst h
      have hz : (ks.map (fun x => if a = x then v else 0)).sum = 0 := by
        apply List.sum_eq_zero
        intro x hx
        rcases List.mem_map.mp hx with ⟨y, hy, hxy⟩
        have : a ≠ y := fun hc => hk (hc ▸ hy)
        simpa [this] using hxy.symm
      simp [hz]
    · have : a ≠ k := fun hc => hk (hc ▸ h)
      simp [this, ih hnd' a h]

theorem sum_filter_partitionQ {α κ : Type _} [DecidableEq κ] (key : α → κ) (val : α → ℚ) :
    ∀ (l : List α) (ks : List κ), ks.Nodup → (∀ x ∈ l, key x ∈ ks) →
      (ks.map (fun k => ((l.filter (fun x => decide (key x = k))).map val).sum)).sum
        = (l.map val).sum := by
  intro l
  induction l with
  | nil => intro ks _ _; simp
  | cons a l ih =>
    intro ks hnd hcov
    have hmem : key a ∈ ks := hcov a (List.mem_cons_self a l)
    have hstep : ∀ k : κ, ((List.filter (fun x => decide (key x = k)) (a :: l)).map val).sum
        = (if key a = k then val a else 0)
          + ((l.filter (fun x => decide (key x = k))).map val).sum := by
      intro k
      by_cases h : key a = k
      · simp [List.filter_cons, h]
      · simp [List.filter_cons, h]
    calc (ks.map (fun k => ((List.filter (fun x => decide (key x = k)) (a :: l)).map val).sum)).sum
        = (ks.map (fun k => (if key a = k then val a else 0)
            + ((l.filter (fun x => decide (key x = k))).map val).sum)).sum := by
          simp only [hstep]
      _ = (ks.map (fun k => if key a = k then val a else 0)).sum
            + (ks.map (fun k => ((l.filter (fun x => decide (key x = k))).map val).sum)).sum := by
          exact sum_map_addQ _ _ ks
      _ = val a + (l.map val).sum := by
          rw [sum_map_ite_singleQ (val a) ks hnd (key a) hmem,
            ih ks hnd (fun x hx => hcov x (List.mem_cons_of_mem a hx))]
      _ = ((a :: l).map val).sum := by simp

theorem mem_dedupSeen {α : Type _} [DecidableEq α] :
    ∀ (l seen : List α) (a : α), a ∈ dedupSeen l seen ↔ a ∈ l ∧ a ∉ seen := by
  intro l
  induction l with
  | nil => intro seen a; simp [dedupSeen]
  | cons x xs ih =>
    intro seen a
    by_cases hx : x ∈ seen
    · rw [show dedupSeen (x :: xs) seen = dedupSeen xs seen from by simp [dedupSeen, hx]]
      rw [ih seen a]
      constructor
      · rintro ⟨h1, h2⟩; exact ⟨List.mem_cons_of_mem x h1, h2⟩
      · rintro ⟨h1, h2⟩
        rcases List.mem_cons.mp h1 with h | h
        · exact absurd (h ▸ hx) h2
        · exact ⟨h, h2⟩
    · rw [show dedupSeen (x :: xs) seen = x :: dedupSeen xs (x :: seen) from by
        simp [dedupSeen, hx]]
      constructor
      · intro hmem
        rcases List.mem_cons.mp hmem with h | h
        · exact ⟨h ▸ List.mem_cons_self x xs, h ▸ hx⟩
        · rcases (ih (x :: seen) a).mp h with ⟨h1, h2⟩
          exact ⟨List.mem_cons_of_mem x h1,
            fun hs => h2 (List.mem_cons_of_mem x hs)⟩
      · rintro ⟨h1, h2⟩
        by_cases hax : a = x
        · exact hax ▸ List.mem_cons_self x _
        · rcases List.mem_cons.mp h1 with h | h
          · exact absurd h hax
          · exact List.mem_cons_of_mem x ((ih (x :: seen) a).mpr
              ⟨h, fun hs => (List.mem_cons.mp hs).elim hax h2⟩)

theorem nodup_dedupSeen {α : Type _} [DecidableEq α] :
    ∀ (l seen : List α), (dedupSeen l seen).Nodup := by
  intro l
  induction l with
  | nil => intro seen; simp [dedupSeen]
  | cons x xs ih =>
    intro seen
    by_cases hx : x ∈ seen
    · simpa [dedupSeen, hx] using ih seen
    · rw [show dedupSeen (x :: xs) seen = x :: dedupSeen xs (x :: seen) from by
        simp [dedupSeen, hx]]
      refine List.nodup_cons.mpr ⟨?_, ih (x :: seen)⟩
      intro hmem
      exact ((mem_dedupSeen xs (x :: seen) x).mp hmem).2 (List.mem_cons_self x seen)

theorem mem_uniqueList {α : Type _} [DecidableEq α] (l : List α) (a : α) :
    a ∈ uniqueList l ↔ a ∈ l := by
  simp [uniqueList, mem_dedupSeen]

theorem pivotRowTotal_eq (rows : List Txn) (c : String) :
    pivotRowTotal rows c
      = ((rows.filter (fun r => decide (r.category = c))).map Txn.amount).sum := by
  unfold pivotRowTotal pivotCell
  have hf : ∀ m : Nat × Nat,
      rows.filter (fun r => decide (r.category = c ∧ monthOf r = m))
        = (rows.filter (fun r => decide (r.category = c))).filter
            (fun r => decide (monthOf r = m)) := by
    intro m
    rw [List.filter_filter]
    apply List.filter_congr
    intro r _
    by_cases h1 : r.category = c <;> by_cases h2 : monthOf r = m <;> simp [h1, h2]
  simp only [hf]
  exact sum_filter_partitionQ monthOf Txn.amount
    (rows.filter (fun r => decide (r.category = c)))
    (uniqueList (rows.map monthOf)) (nodup_dedupSeen _ _)
    (fun x hx => (mem_uniqueList _ _).mpr
      (List.mem_map_of_mem monthOf (List.mem_filter.mp hx).1))

/-! ### Claim theorems -/

/-- C3: for every categorized transaction table, the Total cell at the
intersection of the category pivot's appended total row and total column
equals the sum of the Amount values of all rows of the source table (exact
rational arithmetic stands in for floating point within tolerance). -/
theorem C3_pivot_total_cell (rows : List Txn) :
    pivotGrandTotal rows = (rows.map Txn.amount).sum := by
  unfold pivotGrandTotal
  simp only [pivotRowTotal_eq]
  exact sum_filter_partitionQ Txn.category Txn.amount rows
    (uniqueList (rows.map Txn.category)) (nodup_dedupSeen _ _)
    (fun x hx => (mem_uniqueList _ _).mpr (List.mem_map_of_mem Txn.category hx))

theorem assignCategory_idem (r : Txn) :
    assignCategory (assignCategory r) = assignCategory r := by
  cases h : firstMatchCat r.description with
  | none => simp [assignCategory, h]
  | some c => simp [assignCategory, h]

/-- C4: running the categorizer a second time on a table it has already
categorized (so that the Category column is present) returns exactly the same
rows and the same distinct-category list. -/
theorem C4_categorizer_idempotent (df : DFrame) :
    categorize_transactions ⟨(categorize_transactions df).1, true⟩
      = categorize_transactions df := by
  have hrows : ((initCategory df).map assignCategory).map assignCategory
      = (initCategory df).map assignCategory := by
    rw [List.map_map]
    apply List.map_congr_left
    intro r _
    exact assignCategory_idem r
  show (((initCategory ⟨(initCategory df).map assignCategory, true⟩).map assignCategory),
      uniqueList (((initCategory ⟨(initCategory df).map assignCategory, true⟩).map
        assignCategory).map Txn.category)) = _
  rw [show initCategory ⟨(initCategory df).map assignCategory, true⟩
      = (initCategory df).map assignCategory from rfl]
  rw [hrows]
  rfl

/-- C8 counterexample: the pivot builder does mutate the table it is given:
after the call the input dataframe has gained a Month column, so the claim
that the aggregator adds no columns to its input is false. -/
theorem C8_counterexample :
    ("Month" ∉ pivotInputEx.columns)
  ∧ "Month" ∈ (create_pivot_table_post pivotInputEx).columns
  ∧ (create_pivot_table_post pivotInputEx).columns ≠ pivotInputEx.columns := by
  refine ⟨?_, ?_, ?_⟩ <;> decide

/-- C8 (amended): the categorizer copies its input, but create_pivot_table
mutates the table passed to it: after the call the input object carries the
added Month and Merchant columns (its original columns and row values are
retained). -/
theorem C8_amended (t : PTable) :
    "Month" ∈ (create_pivot_table_post t).columns
  ∧ "Merchant" ∈ (create_pivot_table_post t).columns
  ∧ (create_pivot_table_post t).rows = t.rows
  ∧ (∀ c ∈ t.columns, c ∈ (create_pivot_table_post t).columns) := by
  have hself : ∀ (cols : List String) (c : String), c ∈ addColumn cols c := by
    intro cols c
    unfold addColumn
    by_cases h : c ∈ cols
    · simp [h]
    · simp [h]
  have hmono : ∀ (cols : List String) (c x : String), x ∈ cols → x ∈ addColumn cols c := by
    intro cols c x hx
    unfold addColumn
    by_cases h : c ∈ cols <;> simp [h, hx]
  refine ⟨?_, ?_, rfl, ?_⟩
  · exact hmono _ _ _ (hself t.columns "Month")
  · exact hself _ _
  · intro c hc
    exact hmono _ _ _ (hmono _ _ _ hc)

/-- C8 witness: at a concrete categorized table the post-call state keeps the
rows and original columns and carries Month and Merchant. -/
theorem C8_witness :
    "Month" ∈ (create_pivot_table_post pivotInputEx).columns
  ∧ "Merchant" ∈ (create_pivot_table_post pivotInputEx).columns
  ∧ (create_pivot_table_post pivotInputEx).rows = pivotInputEx.rows
  ∧ (∀ c ∈ pivotInputEx.columns, c ∈ (create_pivot_table_post pivotInputEx).columns) :=
  C8_amended pivotInputEx

theorem find?_first_index {α : Type _} (p : α → Bool) :
    ∀ (l : List α) (a : Nat) (ha : a < l.length), p (l.get ⟨a, ha⟩) = true →
      ∃ (j : Nat) (hj : j < l.length), j ≤ a ∧ p (l.get ⟨j, hj⟩) = true ∧
        l.find? p = some (l.get ⟨j, hj⟩) := by
  intro l
  induction l with
  | nil => intro a ha; exact absurd ha (by simp)
  | cons x xs ih =>
    intro a ha hpa
    by_cases hx : p x = true
    · exact ⟨0, Nat.succ_pos _, Nat.zero_le a, hx, by
        rw [List.find?_cons_of_pos _ hx]
        rfl⟩
    · cases a with
      | zero => exact absurd hpa hx
      | succ a =>
        have ha' : a < xs.length := Nat.lt_of_succ_lt_succ ha
        obtain ⟨j, hj, hle, hpj, hfind⟩ := ih a ha' hpa
        refine ⟨j + 1, Nat.succ_lt_succ hj, Nat.succ_le_succ hle, hpj, ?_⟩
        rw [List.find?_cons_of_neg _ (fun hc => hx hc), hfind]
        rfl

theorem categorize_length (df : DFrame) :
    (categorize_transactions df).1.length = df.rows.length := by
  show ((initCategory df).map assignCategory).length = _
  rw [List.length_map]
  unfold initCategory
  by_cases h : df.hasCategoryCol <;> simp [h]

theorem initCategory_get (df : DFrame) (i : Nat) (hi : i < df.rows.length)
    (hi' : i < (initCategory df).length) :
    ((initCategory df).get ⟨i, hi'⟩).description = (df.rows.get ⟨i, hi⟩).description
  ∧ ((initCategory df).get ⟨i, hi'⟩).category
      = (if df.hasCategoryCol then (df.rows.get ⟨i, hi⟩).category else "Uncategorized") := by
  obtain ⟨rows, hc⟩ := df
  cases hc
  · have hg : (initCategory ⟨rows, false⟩).get ⟨i, hi'⟩
        = ({ rows.get ⟨i, hi⟩ with category := "Uncategorized" } : Txn) := by
      have h := List.get_map (fun (r : Txn) => ({ r with category := "Uncategorized" } : Txn))
        (l := rows) (n := ⟨i, hi'⟩)
      exact h
    rw [hg]
    exact ⟨rfl, rfl⟩
  · exact ⟨rfl, rfl⟩

/-- C1: the categorizer tests each row's description case-insensitively
against every category's pattern list in the fixed declaration order (the
eleven categories listed); the first category with any matching pattern is
assigned, so a description matching a category always receives that category
or one declared earlier; a row matching no category keeps "Uncategorized". -/
theorem C1_first_match_in_declared_order :
    categoryPatterns.map Prod.fst =
      ["Dining", "Groceries", "Gas & Automotive", "Travel", "Entertainment",
       "Shopping", "Health & Medical", "Utilities & Bills",
       "Subscriptions & Memberships", "Education", "Income & Transfers"]
  ∧ (∀ (pat s₁ s₂ : String), lowCodes s₁ = lowCodes s₂ →
        reSearch pat s₁ = reSearch pat s₂)
  ∧ (∀ df : DFrame, (categorize_transactions df).1.length = df.rows.length)
  ∧ ∀ (df : DFrame) (i : Nat) (hi : i < df.rows.length)
      (ho : i < (categorize_transactions df).1.length),
      (∀ (a : Nat) (ha : a < categoryPatterns.length),
        catMatches ((df.rows.get ⟨i, hi⟩).description) (categoryPatterns.get ⟨a, ha⟩).2
            = true →
        ∃ (j : Nat) (hj : j < categoryPatterns.length), j ≤ a ∧
          catMatches ((df.rows.get ⟨i, hi⟩).description) (categoryPatterns.get ⟨j, hj⟩).2
              = true ∧
          ((categorize_transactions df).1.get ⟨i, ho⟩).category
              = (categoryPatterns.get ⟨j, hj⟩).1)
      ∧ ((∀ p ∈ categoryPatterns,
            catMatches ((df.rows.get ⟨i, hi⟩).description) p.2 = false) →
          ((categorize_transactions df).1.get ⟨i, ho⟩).category
            = (if df.hasCategoryCol then (df.rows.get ⟨i, hi⟩).category
               else "Uncategorized")) := by
  refine ⟨rfl, ?_, categorize_length, ?_⟩
  · intro pat s₁ s₂ h
    unfold reSearch
    rw [h]
  · intro df i hi ho
    have hi' : i < (initCategory df).length := by
      have h1 := categorize_length df
      have h2 : (categorize_transactions df).1 = (initCategory df).map assignCategory := rfl
      rw [h2, List.length_map] at h1
      omega
    have hget : (categorize_transactions df).1.get ⟨i, ho⟩
        = assignCategory ((initCategory df).get ⟨i, hi'⟩) := by
      show ((initCategory df).map assignCategory).get ⟨i, ho⟩
          = assignCategory ((initCategory df).get ⟨i, hi'⟩)
      rw [List.get_map]
    obtain ⟨hdesc, hcat⟩ := initCategory_get df i hi hi'
    constructor
    · intro a ha hm
      obtain ⟨j, hj, hle, hpj, hfind⟩ := find?_first_index
        (fun pr => catMatches ((df.rows.get ⟨i, hi⟩).description) pr.2)
        categoryPatterns a ha hm
      refine ⟨j, hj, hle, hpj, ?_⟩
      have hfm : firstMatchCat (((initCategory df).get ⟨i, hi'⟩).description)
          = some ((categoryPatterns.get ⟨j, hj⟩).1) := by
        unfold firstMatchCat
        rw [hdesc, hfind]
        rfl
      rw [hget]
      unfold assignCategory
      rw [hfm]
    · intro hnone
      have hfind : categoryPatterns.find?
          (fun pr => catMatches ((df.rows.get ⟨i, hi⟩).description) pr.2) = none :=
        List.find?_eq_none.mpr (fun x hx => by
          show ¬ catMatches ((df.rows.get ⟨i, hi⟩).description) x.2 = true
          rw [hnone x hx]
          simp)
      have hfm : firstMatchCat (((initCategory df).get ⟨i, hi'⟩).description) = none := by
        unfold firstMatchCat
        rw [hdesc, hfind]
        rfl
      rw [hget]
      unfold assignCategory
      rw [hfm]
      exact hcat

/-- C1 witness: matching is invariant under the case of the description, and
on a concrete row matching both Dining (index 0) and Shopping (index 5) the
assigned category is one declared no later than Shopping. -/
theorem C1_witness :
    reSearch "starbucks" "STARBUCKS STORE" = reSearch "starbucks" "starbucks store"
  ∧ ∃ (j : Nat) (hj : j < categoryPatterns.length), j ≤ 5 ∧
      catMatches ((dfEx.rows.get ⟨0, by decide⟩).description)
          (categoryPatterns.get ⟨j, hj⟩).2 = true ∧
      ((categorize_transactions dfEx).1.get ⟨0, by decide⟩).category
          = (categoryPatterns.get ⟨j, hj⟩).1 :=
  ⟨C1_first_match_in_declared_order.2.1 "starbucks" "STARBUCKS STORE" "starbucks store"
      (by decide),
    (C1_first_match_in_declared_order.2.2.2 dfEx 0 (by decide) (by decide)).1 5
      (by decide) (by decide)⟩

theorem amex_ok_iff (t : CsvTable) :
    isOkE (amexParseCsv t) = allSome3 (amexFindCols t.header) := by
  cases h : amexFindCols t.header with
  | mk d r =>
    cases r with
    | mk s a =>
      cases d <;> cases s <;> cases a <;> simp [amexParseCsv, h, allSome3, isOkE]

theorem chase_ok_iff (t : CsvTable) :
    isOkE (chaseParseCsv t) = allSome3 (chaseFindCols t.header) := by
  cases h : chaseFindCols t.header with
  | mk d r =>
    cases r with
    | mk s a =>
      cases d <;> cases s <;> cases a <;> simp [chaseParseCsv, h, allSome3, isOkE]

theorem discover_ok_iff (t : CsvTable) :
    isOkE (discoverParseCsv t) = allSome3 (discoverFindCols t.header) := by
  cases h : discoverFindCols t.header with
  | mk d r =>
    cases r with
    | mk s a =>
      cases d <;> cases s <;> cases a <;> simp [discoverParseCsv, h, allSome3, isOkE]

theorem generic_ok_iff (t : CsvTable) :
    isOkE (genericParseCsv t) = allSome3 (genericResolve t) := by
  cases h : genericResolve t with
  | mk d r =>
    cases r with
    | mk s a =>
      cases d <;> cases s <;> cases a <;> simp [genericParseCsv, h, allSome3, isOkE]

/-- C2 counterexample: a CSV whose column names match no alias list but whose
contents resolve every role by inference.  The claim predicts every plugin
falls back to content inference and therefore succeeds here, yet the Amex
parser fails; the generic parser's content pass (its name pass resolves
nothing) does resolve all three roles and succeeds. -/
theorem C2_counterexample :
    isOkE (amexParseCsv csvEx) = false
  ∧ genericNameCols csvEx = (none, none, none)
  ∧ allSome3 (genericResolve csvEx) = true
  ∧ isOkE (genericParseCsv csvEx) = true := by
  refine ⟨?_, ?_, ?_, ?_⟩ <;> exact of_decide_eq_true (by with_unfolding_all rfl)

/-- C2 (amended): only the generic parser falls back to content-based
inference.  Each bank-specific parser (Amex, Chase, Discover) fails with its
schema-detection error exactly when matching the column names against its
alias list leaves one of the three required roles unresolved, while the
generic parser fails exactly when a role is still unresolved after its name
pass plus content fallback; no parser returns a table lacking a required
column. -/
theorem C2_only_generic_content_fallback (t : CsvTable) :
    (isOkE (amexParseCsv t) = false ↔ allSome3 (amexFindCols t.header) = false)
  ∧ (isOkE (chaseParseCsv t) = false ↔ allSome3 (chaseFindCols t.header) = false)
  ∧ (isOkE (discoverParseCsv t) = false ↔ allSome3 (discoverFindCols t.header) = false)
  ∧ (isOkE (genericParseCsv t) = false ↔ allSome3 (genericResolve t) = false) := by
  refine ⟨?_, ?_, ?_, ?_⟩
  · rw [amex_ok_iff]
  · rw [chase_ok_iff]
  · rw [discover_ok_iff]
  · rw [generic_ok_iff]

theorem failuresList_eq (pf : String → Except String (List Txn)) (paths : List String) :
    (paths.filterMap (fun p =>
        match pf p with
        | Except.error m => some (basename p, m)
        | Except.ok _ => none))
      = (paths.filter (fun p => !(isOkE (pf p)))).map
          (fun p => (basename p, errMsgOf (pf p))) := by
  induction paths with
  | nil => rfl
  | cons q qs ih =>
    cases h : pf q <;>
      simp [List.filterMap_cons, List.filter_cons, h, isOkE, errMsgOf, ih]

theorem okRows_none_iff (e : Except String (List Txn)) :
    okRows e = none ↔ isOkE e = false := by
  cases e <;> simp [okRows, isOkE]

/-- C5: for every non-empty path list, the multi-file parse fails (carrying
the per-file error report) iff no file parsed successfully; when at least one
file succeeds it returns the date-sorted concatenation of exactly the
successful tables, and every failed file is recorded under its basename with
its error message. -/
theorem C5_multi_file_batch (pf : String → Except String (List Txn))
    (paths : List String) (h : paths ≠ []) :
    (isOkE (parse_multiple_files pf paths).outcome = false
        ↔ ∀ p ∈ paths, isOkE (pf p) = false)
  ∧ (parse_multiple_files pf paths).failures
      = (paths.filter (fun p => !(isOkE (pf p)))).map
          (fun p => (basename p, errMsgOf (pf p)))
  ∧ ∀ rows, (parse_multiple_files pf paths).outcome = Except.ok rows →
      rows.Perm ((paths.filterMap (fun p => okRows (pf p))).flatten)
      ∧ List.Sorted dateLe rows := by
  rcases paths with _ | ⟨q, qs⟩
  · exact absurd rfl h
  by_cases hA : (((q :: qs).filterMap (fun p => okRows (pf p))).isEmpty : Prop)
  · have hnil : (q :: qs).filterMap (fun p => okRows (pf p)) = [] :=
      List.isEmpty_iff.mp hA
    refine ⟨?_, ?_, ?_⟩
    · simp only [parse_multiple_files, if_pos hA]
      constructor
      · intro _ p hp
        exact (okRows_none_iff (pf p)).mp (List.filterMap_eq_nil_iff.mp hnil p hp)
      · intro _
        rfl
    · simp only [parse_multiple_files, if_pos hA]
      exact failuresList_eq pf (q :: qs)
    · intro rows hrows
      simp only [parse_multiple_files, if_pos hA] at hrows
      exact absurd hrows (by simp)
  · refine ⟨?_, ?_, ?_⟩
    · simp only [parse_multiple_files, if_neg hA]
      constructor
      · intro hc
        exact absurd hc (by simp [isOkE])
      · intro hall
        exfalso
        apply hA
        rw [List.isEmpty_iff, List.filterMap_eq_nil_iff]
        intro p hp
        exact (okRows_none_iff (pf p)).mpr (hall p hp)
    · simp only [parse_multiple_files, if_neg hA]
      exact failuresList_eq pf (q :: qs)
    · intro rows hrows
      simp only [parse_multiple_files, if_neg hA] at hrows
      have hr : List.insertionSort dateLe
          ((q :: qs).filterMap (fun p => okRows (pf p))).flatten = rows := by
        injection hrows
      constructor
      · rw [← hr]
        exact List.perm_insertionSort dateLe _
      · rw [← hr]
        exact List.sorted_insertionSort dateLe _

/-- C5 witness: a batch of one succeeding and one failing file returns the
successful table and records the failed file under its basename. -/
theorem C5_witness :
    (isOkE (parse_multiple_files pfEx ["dir/good.csv", "dir/bad.csv"]).outcome = false
        ↔ ∀ p ∈ ["dir/good.csv", "dir/bad.csv"], isOkE (pfEx p) = false)
  ∧ (parse_multiple_files pfEx ["dir/good.csv", "dir/bad.csv"]).failures
      = ((["dir/good.csv", "dir/bad.csv"].filter (fun p => !(isOkE (pfEx p)))).map
          (fun p => (basename p, errMsgOf (pfEx p))))
  ∧ ∀ rows,
      (parse_multiple_files pfEx ["dir/good.csv", "dir/bad.csv"]).outcome = Except.ok rows →
      rows.Perm ((["dir/good.csv", "dir/bad.csv"].filterMap
          (fun p => okRows (pfEx p))).flatten)
      ∧ List.Sorted dateLe rows :=
  C5_multi_file_batch pfEx ["dir/good.csv", "dir/bad.csv"] (by simp)

theorem collectRows_skip (pre post : List Block) (b : Block)
    (hb : processBlock b = Except.ok (none : Option Txn)) :
    collectRows (pre ++ b :: post) = collectRows (pre ++ post) := by
  induction pre with
  | nil => simp [collectRows, hb]
  | cons p pre ih =>
    cases hp : processBlock p <;> simp [collectRows, hp, ih]

theorem parse_ofx_skip (pre post : List Block) (b : Block)
    (hb : processBlock b = Except.ok (none : Option Txn)) :
    parse_ofx (pre ++ b :: post) = parse_ofx (pre ++ post) := by
  unfold parse_ofx
  rw [collectRows_skip pre post b hb]

/-- C6 counterexample: a block that lacks TRNAMT but whose eight-character
DTPOSTED contains a non-digit is not skipped silently; the int() call raises
and the whole file parse fails, although the same file without that block
parses fine. -/
theorem C6_counterexample :
    badBlock.trnamt = none
  ∧ isOkE (parse_ofx [goodBlock]) = true
  ∧ isOkE (parse_ofx [goodBlock, badBlock]) = false := by
  refine ⟨rfl, ?_, ?_⟩ <;> exact of_decide_eq_true (by with_unfolding_all rfl)

/-- C6 (amended): a block lacking DTPOSTED, or whose date string is shorter
than eight characters, is skipped silently; a block lacking TRNAMT is skipped
silently provided its date string parses as a valid date; in each case the
remaining blocks parse exactly as if the skipped block were absent.  (A
malformed date string of eight or more characters instead aborts the whole
file parse, as the counterexample shows.) -/
theorem C6_skipped_blocks :
    (∀ (pre post : List Block) (b : Block), b.dtposted = none →
        parse_ofx (pre ++ b :: post) = parse_ofx (pre ++ post))
  ∧ (∀ (pre post : List Block) (b : Block) (s : String),
        b.dtposted = some s → s.length < 8 →
        parse_ofx (pre ++ b :: post) = parse_ofx (pre ++ post))
  ∧ (∀ (pre post : List Block) (b : Block) (s : String) (d : CalDate),
        b.dtposted = some s → ofxDateVal s = some d → b.trnamt = none →
        parse_ofx (pre ++ b :: post) = parse_ofx (pre ++ post)) := by
  refine ⟨?_, ?_, ?_⟩
  · intro pre post b hb
    exact parse_ofx_skip pre post b (by simp [processBlock, hb])
  · intro pre post b s hb hlen
    apply parse_ofx_skip
    have : ¬ s.length ≥ 8 := by omega
    simp [processBlock, hb, this]
  · intro pre post b s d hb hdate htr
    have hlen : s.length ≥ 8 := by
      by_contra hc
      simp [ofxDateVal, hc] at hdate
    rcases h1 : parseIntSub s 0 4 with _ | y
    · simp [ofxDateVal, hlen, h1] at hdate
    rcases h2 : parseIntSub s 4 6 with _ | mo
    · simp [ofxDateVal, hlen, h1, h2] at hdate
    rcases h3 : parseIntSub s 6 8 with _ | dy
    · simp [ofxDateVal, hlen, h1, h2, h3] at hdate
    have hmk : mkDate y mo dy = some d := by
      simpa [ofxDateVal, hlen, h1, h2, h3] using hdate
    apply parse_ofx_skip
    simp [processBlock, hb, hlen, h1, h2, h3, hmk, htr]

/-- C6 witness: a block carrying a valid date but no TRNAMT is skipped; the
file parses exactly as without it. -/
theorem C6_witness :
    parse_ofx ([goodBlock] ++ skipNoAmtBlock :: []) = parse_ofx ([goodBlock] ++ []) :=
  C6_skipped_blocks.2.2 [goodBlock] [] skipNoAmtBlock "20240105" ⟨2024, 1, 5⟩ rfl
    (of_decide_eq_true (by with_unfolding_all rfl)) rfl

theorem collectRows_mem :
    ∀ (blocks : List Block) (rows : List Txn),
      collectRows blocks = Except.ok rows →
      ∀ r ∈ rows, ∃ b ∈ blocks, processBlock b = Except.ok (some r) := by
  intro blocks
  induction blocks with
  | nil =>
    intro rows hrows r hr
    have : rows = [] := by simpa [collectRows] using hrows.symm
    subst this
    exact absurd hr (List.not_mem_nil r)
  | cons b bs ih =>
    intro rows hrows r hr
    rcases hb : processBlock b with e | ov
    · rw [show collectRows (b :: bs) = Except.error e from by
        simp [collectRows, hb]] at hrows
      exact absurd hrows (by simp)
    · rcases ov with _ | r0
      · have h2 : collectRows bs = Except.ok rows := by
          rw [show collectRows (b :: bs) = collectRows bs from by
            simp [collectRows, hb]] at hrows
          exact hrows
        obtain ⟨b2, hb2, hp2⟩ := ih rows h2 r hr
        exact ⟨b2, List.mem_cons_of_mem b hb2, hp2⟩
      · rcases hcs : collectRows bs with e2 | rest
        · rw [show collectRows (b :: bs) = Except.error e2 from by
            simp [collectRows, hb, hcs, Except.map]] at hrows
          exact absurd hrows (by simp)
        · have hre : rows = r0 :: rest := by
            rw [show collectRows (b :: bs) = Except.ok (r0 :: rest) from by
              simp [collectRows, hb, hcs, Except.map]] at hrows
            injection hrows with h3
            exact h3.symm
          subst hre
          rcases List.mem_cons.mp hr with h4 | h4
          · subst h4
            exact ⟨b, List.mem_cons_self b bs, hb⟩
          · obtain ⟨b2, hb2, hp2⟩ := ih rest hcs r h4
            exact ⟨b2, List.mem_cons_of_mem b hb2, hp2⟩

theorem processBlock_amount (b : Block) (r : Txn)
    (h : processBlock b = Except.ok (some r)) :
    ∃ s, b.trnamt = some s ∧ parseFloat s = some r.amount := by
  rcases hdp : b.dtposted with _ | ds
  · simp [processBlock, hdp] at h
  by_cases hlen : ds.length ≥ 8
  · rcases h1 : parseIntSub ds 0 4 with _ | y
    · simp [processBlock, hdp, hlen, h1] at h
    rcases h2 : parseIntSub ds 4 6 with _ | mo
    · simp [processBlock, hdp, hlen, h1, h2] at h
    rcases h3 : parseIntSub ds 6 8 with _ | dy
    · simp [processBlock, hdp, hlen, h1, h2, h3] at h
    rcases h4 : mkDate y mo dy with _ | date
    · simp [processBlock, hdp, hlen, h1, h2, h3, h4] at h
    rcases h5 : b.trnamt with _ | astr
    · simp [processBlock, hdp, hlen, h1, h2, h3, h4, h5] at h
    rcases h6 : parseFloat astr with _ | amt
    · simp [processBlock, hdp, hlen, h1, h2, h3, h4, h5, h6] at h
    · have hr : (⟨date, (b.name.orElse fun _ => b.memo).getD "Unknown", amt,
          "Amex", "Uncategorized"⟩ : Txn) = r := by
        have h7 := h
        simp [processBlock, hdp, hlen, h1, h2, h3, h4, h5, h6] at h7
        exact h7
      subst hr
      exact ⟨astr, rfl, h6⟩
  · simp [processBlock, hdp, hlen] at h

theorem parse_ofx_ok_inv (blocks : List Block) (rows : List Txn)
    (h : parse_ofx blocks = Except.ok rows) :
    collectRows blocks = Except.ok rows := by
  rcases hc : collectRows blocks with e | l
  · rw [show parse_ofx blocks = Except.error ("Error parsing Amex OFX file: " ++ e) from by
      unfold parse_ofx
      rw [hc]] at h
    exact absurd h (by simp)
  · rcases l with _ | ⟨r0, rs⟩
    · rw [show parse_ofx blocks
          = Except.error "Error parsing Amex OFX file: No transactions found in the OFX file"
          from by
        unfold parse_ofx
        rw [hc]] at h
      exact absurd h (by simp)
    · rw [show parse_ofx blocks = Except.ok (r0 :: rs) from by
        unfold parse_ofx
        rw [hc]] at h
      exact h

/-- C7: every parsed row's Amount is the value parsed from the source amount
cell (CSV) or TRNAMT field (OFX/QFX), passed through with no sign inversion
or normalization: the row's amount equals exactly what the numeric parse of
the raw source text yields. -/
theorem C7_amount_passthrough :
    (∀ (t : CsvTable) (bank dc sc ac : String) (r : Txn),
        r ∈ standardize_dataframe t bank dc sc ac →
        ∃ row ∈ t.rows,
          parseFloat (cellVal row (colIndex t.header ac)) = some r.amount ∧
          parseDateCell (cellVal row (colIndex t.header dc)) = some r.date)
  ∧ (∀ (blocks : List Block) (rows : List Txn) (r : Txn),
        parse_ofx blocks = Except.ok rows → r ∈ rows →
        ∃ b ∈ blocks, ∃ s, b.trnamt = some s ∧ parseFloat s = some r.amount) := by
  constructor
  · intro t bank dc sc ac r hr
    unfold standardize_dataframe at hr
    rw [List.mem_filterMap] at hr
    obtain ⟨row, hrow, heq⟩ := hr
    rcases hd : parseDateCell (cellVal row (colIndex t.header dc)) with _ | d
    · rw [hd] at heq
      exact absurd heq (by simp)
    rcases ha : parseFloat (cellVal row (colIndex t.header ac)) with _ | a
    · rw [hd, ha] at heq
      exact absurd heq (by simp)
    rw [hd, ha] at heq
    simp only [Option.some.injEq] at heq
    refine ⟨row, hrow, ?_, ?_⟩
    · rw [← heq]
      exact ha
    · rw [← heq]
      exact hd
  · intro blocks rows r hparse hr
    obtain ⟨b, hb, hpb⟩ := collectRows_mem blocks rows (parse_ofx_ok_inv blocks rows hparse) r hr
    obtain ⟨s, hs, hsa⟩ := processBlock_amount b r hpb
    exact ⟨b, hb, s, hs, hsa⟩

/-- C7 witness: a CSV row with raw amount text -12.50 yields a transaction
whose amount is exactly the parsed value -25/2, and the OFX block with TRNAMT
-4.50 yields amount -9/2. -/
theorem C7_witness :
    (∃ row ∈ csvGoodEx.rows,
      parseFloat (cellVal row (colIndex csvGoodEx.header "Amount"))
          = some ((⟨⟨2024, 1, 5⟩, "STARBUCKS", -(25 : ℚ)/2, "Amex", "Uncategorized"⟩ : Txn).amount) ∧
      parseDateCell (cellVal row (colIndex csvGoodEx.header "Date"))
          = some ((⟨⟨2024, 1, 5⟩, "STARBUCKS", -(25 : ℚ)/2, "Amex", "Uncategorized"⟩ : Txn).date))
  ∧ ∃ b ∈ [goodBlock], ∃ s, b.trnamt = some s ∧
      parseFloat s = some ((⟨⟨2024, 1, 5⟩, "STARBUCKS", -(9 : ℚ)/2, "Amex",
        "Uncategorized"⟩ : Txn).amount) :=
  ⟨C7_amount_passthrough.1 csvGoodEx "Amex" "Date" "Description" "Amount" _
      (of_decide_eq_true (by with_unfolding_all rfl)),
    C7_amount_passthrough.2 [goodBlock]
      [⟨⟨2024, 1, 5⟩, "STARBUCKS", -(9 : ℚ)/2, "Amex", "Uncategorized"⟩]
      ⟨⟨2024, 1, 5⟩, "STARBUCKS", -(9 : ℚ)/2, "Amex", "Uncategorized"⟩
      (of_decide_eq_true (by with_unfolding_all rfl))
      (of_decide_eq_true (by with_unfolding_all rfl))⟩

/-- C9: an OFX block with a valid DTPOSTED date and a parseable TRNAMT but
neither NAME nor MEMO still yields a row, with the literal description
Unknown, rather than being skipped. -/
theorem C9_unknown_description (b : Block) (s astr : String) (q : ℚ) (d : CalDate)
    (h1 : b.dtposted = some s) (h2 : ofxDateVal s = some d)
    (h3 : b.name = none) (h4 : b.memo = none)
    (h5 : b.trnamt = some astr) (h6 : parseFloat astr = some q) :
    parse_ofx [b] = Except.ok [⟨d, "Unknown", q, "Amex", "Uncategorized"⟩] := by
  have hlen : s.length ≥ 8 := by
    by_contra hc
    simp [ofxDateVal, hc] at h2
  rcases ha : parseIntSub s 0 4 with _ | y
  · simp [ofxDateVal, hlen, ha] at h2
  rcases hb2 : parseIntSub s 4 6 with _ | mo
  · simp [ofxDateVal, hlen, ha, hb2] at h2
  rcases hc3 : parseIntSub s 6 8 with _ | dy
  · simp [ofxDateVal, hlen, ha, hb2, hc3] at h2
  have hmk : mkDate y mo dy = some d := by
    simpa [ofxDateVal, hlen, ha, hb2, hc3] using h2
  have hpb : processBlock b
      = Except.ok (some ⟨d, "Unknown", q, "Amex", "Uncategorized"⟩) := by
    simp [processBlock, h1, hlen, ha, hb2, hc3, hmk, h3, h4, h5, h6, Option.orElse]
  simp [parse_ofx, collectRows, hpb, Except.map]

/-- C9 witness: a concrete block with date 20240105 and amount 25.00 but no
NAME or MEMO produces the row with description Unknown. -/
theorem C9_witness :
    parse_ofx [unknownBlock]
      = Except.ok [⟨⟨2024, 1, 5⟩, "Unknown", 25, "Amex", "Uncategorized"⟩] :=
  C9_unknown_description unknownBlock "20240105" "25.00" 25 ⟨2024, 1, 5⟩ rfl
    (of_decide_eq_true (by with_unfolding_all rfl)) rfl rfl rfl
    (of_decide_eq_true (by with_unfolding_all rfl))

/-- C10: a CSV whose three required columns are resolved but all of whose
rows are dropped parses successfully to an empty table, while an OFX parse
never returns an empty table: with no valid blocks it fails with the
no-transactions-found error. -/
theorem C10_empty_table_outcomes :
    (∀ (t : CsvTable) (bank dc sc ac : String),
        (∀ row ∈ t.rows,
          parseDateCell (cellVal row (colIndex t.header dc)) = none ∨
          parseFloat (cellVal row (colIndex t.header ac)) = none) →
        standardize_dataframe t bank dc sc ac = [])
  ∧ (∀ (t : CsvTable) (dc sc ac : String),
        amexFindCols t.header = (some dc, some sc, some ac) →
        (∀ row ∈ t.rows,
          parseDateCell (cellVal row (colIndex t.header dc)) = none ∨
          parseFloat (cellVal row (colIndex t.header ac)) = none) →
        amexParseCsv t = Except.ok [])
  ∧ (∀ blocks : List Block, parse_ofx blocks ≠ Except.ok ([] : List Txn))
  ∧ (∀ blocks : List Block,
        (∀ b ∈ blocks, processBlock b = Except.ok (none : Option Txn)) →
        parse_ofx blocks
          = Except.error "Error parsing Amex OFX file: No transactions found in the OFX file") := by
  have hstd : ∀ (t : CsvTable) (bank dc sc ac : String),
      (∀ row ∈ t.rows,
        parseDateCell (cellVal row (colIndex t.header dc)) = none ∨
        parseFloat (cellVal row (colIndex t.header ac)) = none) →
      standardize_dataframe t bank dc sc ac = [] := by
    intro t bank dc sc ac hall
    unfold standardize_dataframe
    rw [List.filterMap_eq_nil_iff]
    intro row hrow
    rcases hall row hrow with hd | ha
    · simp [hd]
    · rcases hdd : parseDateCell (cellVal row (colIndex t.header dc)) with _ | d
      · simp
      · simp [ha]
  refine ⟨hstd, ?_, ?_, ?_⟩
  · intro t dc sc ac hcols hall
    unfold amexParseCsv
    rw [hcols]
    show Except.ok (standardize_dataframe t "Amex" dc sc ac) = Except.ok []
    rw [hstd t "Amex" dc sc ac hall]
  · intro blocks
    unfold parse_ofx
    rcases hc : collectRows blocks with e | l
    · simp
    · rcases l with _ | ⟨r0, rs⟩ <;> simp
  · intro blocks hall
    have hrows : collectRows blocks = Except.ok ([] : List Txn) := by
      induction blocks with
      | nil => rfl
      | cons b bs ih =>
        rw [show collectRows (b :: bs) = collectRows bs from by
          simp [collectRows, hall b (List.mem_cons_self b bs)]]
        exact ih (fun b2 hb2 => hall b2 (List.mem_cons_of_mem b hb2))
    unfold parse_ofx
    rw [hrows]

/-- C10 witness: a CSV with recognised columns whose only row has an
unparseable date and amount parses to the empty table, and an OFX file whose
only block is empty fails with the no-transactions error. -/
theorem C10_witness :
    amexParseCsv csvNamedEx = Except.ok []
  ∧ parse_ofx [emptyBlock]
      = Except.error "Error parsing Amex OFX file: No transactions found in the OFX file" :=
  ⟨C10_empty_table_outcomes.2.1 csvNamedEx "Date" "Description" "Amount"
      (of_decide_eq_true (by with_unfolding_all rfl))
      (of_decide_eq_true (by with_unfolding_all rfl)),
    C10_empty_table_outcomes.2.2.2 [emptyBlock] (by
      intro b hb
      rw [List.mem_singleton] at hb
      subst hb
      rfl)⟩

end CCA
